import Mathlib

/-!
Verification development for the StripeTestPB repository: an Express backend
(webhook verifier and dispatcher, checkout-session creator, product catalog)
and a React client (cart state management, two-state checkout flow).
Definitions are a shallow embedding of `src/server/server.js` (which also
contains the client `App.js` code).
-/

/-- HTTP response bodies the server sends, as a structured type. -/
inductive RespBody where
  | webhookError (msg : String)
  | receivedTrue
  | jsonError (msg : String)
  | jsonSessionId (sid : String)
  deriving Repr, DecidableEq

/-- An HTTP response: status code plus body. -/
structure HttpResponse where
  status : Nat
  body : RespBody
  deriving Repr, DecidableEq

/-! ## Webhook verifier and dispatcher (server.js lines 16-50) -/

/-- A decoded webhook event: the discriminating `type` string and the id of
the `data.object` payload (the only payload field the handler reads). -/
structure Event where
  type : String
  dataObjectId : String
  deriving Repr, DecidableEq

/-- One branch of the switch on `event.type` in the webhook handler. -/
inductive Dispatch where
  | checkoutSessionCompleted (sessionId : String)
  | paymentIntentSucceeded (paymentIntentId : String)
  | unhandled (eventType : String)
  deriving Repr, DecidableEq

/-- The `stripe-signature` header: a timestamp and an HMAC signature. -/
structure SigHeader where
  timestamp : Nat
  v1 : String
  deriving Repr, DecidableEq

/-- Modelled from the spec: `stripe.webhooks.constructEvent` is third-party
library code, not part of this repository. Per the spec, verification is an
HMAC (abstracted here as the parameter `hmac`, keyed by the secret) over the
timestamp-prefixed raw body; the signature header carries timestamp and
signature; a tolerance window rejects stale timestamps; on success the raw
body is decoded (parameter `parse`) into the event. -/
def constructEvent (hmac : String → String → String) (now tolerance : Nat)
    (parse : String → Option Event)
    (rawBody : String) (header : SigHeader) (secret : String) :
    Except String Event :=
  if header.v1 ≠ hmac secret (toString header.timestamp ++ "." ++ rawBody) then
    Except.error "No signatures found matching the expected signature for payload"
  else if header.timestamp + tolerance < now then
    Except.error "Timestamp outside the tolerance zone"
  else
    match parse rawBody with
    | some e => Except.ok e
    | none => Except.error "Unexpected event payload"

/-- The switch on `event.type` (server.js lines 32-46): recognized types go to
their branch, anything else falls through to the logging default branch. -/
def dispatchEvent (e : Event) : Dispatch :=
  if e.type = "checkout.session.completed" then
    Dispatch.checkoutSessionCompleted e.dataObjectId
  else if e.type = "payment_intent.succeeded" then
    Dispatch.paymentIntentSucceeded e.dataObjectId
  else
    Dispatch.unhandled e.type

/-- The `/webhook` route handler, parameterized by the outcome of
`stripe.webhooks.constructEvent`: on a verification error it returns 400 with
the error text and dispatches nothing; on success it runs the switch once and
acknowledges with 200 and a received-true body. -/
def handleWebhook (verify : Except String Event) : HttpResponse × List Dispatch :=
  match verify with
  | Except.error err => (⟨400, RespBody.webhookError ("Webhook Error: " ++ err)⟩, [])
  | Except.ok event => (⟨200, RespBody.receivedTrue⟩, [dispatchEvent event])

/-! ## Checkout session creator (server.js lines 67-104) -/

/-- An item of the request body posted to `/api/create-checkout-session`. -/
structure ReqItem where
  id : String
  name : String
  price : Int
  quantity : Int
  deriving Repr, DecidableEq

/-- The `price_data` object of a Stripe line item. -/
structure PriceData where
  currency : String
  productName : String
  unit_amount : Int
  deriving Repr, DecidableEq

/-- A Stripe line item: price data plus quantity. -/
structure LineItem where
  price_data : PriceData
  quantity : Int
  deriving Repr, DecidableEq

/-- The parameters of the `stripe.checkout.sessions.create` call. -/
structure SessionParams where
  payment_method_types : List String
  line_items : List LineItem
  mode : String
  success_url : String
  cancel_url : String
  deriving Repr, DecidableEq

/-- The `items.map` building the line items (server.js lines 75-84). -/
def lineItemsOf (items : List ReqItem) : List LineItem :=
  items.map (fun item => ⟨⟨"aud", item.name, item.price⟩, item.quantity⟩)

/-- The session-creation parameters sent upstream (server.js lines 86-97). -/
def sessionParamsOf (frontendUrl : String) (items : List ReqItem) : SessionParams :=
  { payment_method_types := ["card"]
    line_items := lineItemsOf items
    mode := "payment"
    success_url := frontendUrl ++ "/success?session_id=\x7bCHECKOUT_SESSION_ID\x7d"
    cancel_url := frontendUrl ++ "/cancel" }

/-- The `/api/create-checkout-session` handler. `items = none` models a body
whose `items` field is missing or null (JS falsy check). `stripeCreate` is
the upstream provider call; the second component of the result records the
parameters of every outbound upstream call the handler made. -/
def createSession (stripeCreate : SessionParams → Except String String)
    (frontendUrl : String) (items : Option (List ReqItem)) :
    HttpResponse × List SessionParams :=
  match items with
  | none => (⟨400, RespBody.jsonError "No items provided"⟩, [])
  | some its =>
    if its.length = 0 then
      (⟨400, RespBody.jsonError "No items provided"⟩, [])
    else
      let params := sessionParamsOf frontendUrl its
      match stripeCreate params with
      | Except.ok sessionId => (⟨200, RespBody.jsonSessionId sessionId⟩, [params])
      | Except.error msg => (⟨500, RespBody.jsonError msg⟩, [params])

/-! ## Cart state manager (server.js App.js part, lines 152-185) -/

/-- A catalog product. -/
structure Product where
  id : String
  name : String
  price : Int
  imageUrl : String
  deriving Repr, DecidableEq

/-- A cart entry: all product fields (JS object spread) plus a quantity. -/
structure CartItem where
  id : String
  name : String
  price : Int
  imageUrl : String
  quantity : Int
  deriving Repr, DecidableEq

/-- The cart item created on first add: the spread product with a quantity. -/
def toCartItem (p : Product) (q : Int) : CartItem :=
  ⟨p.id, p.name, p.price, p.imageUrl, q⟩

/-- `addToCart` (lines 152-164): find an existing item with the product's id;
if found, map over the cart incrementing that item's quantity; otherwise
append the product with quantity 1. -/
def addToCart (productToAdd : Product) (prevCart : List CartItem) : List CartItem :=
  match prevCart.find? (fun item => item.id == productToAdd.id) with
  | some _ =>
    prevCart.map (fun item =>
      if item.id = productToAdd.id then { item with quantity := item.quantity + 1 } else item)
  | none => prevCart ++ [toCartItem productToAdd 1]

/-- `removeFromCart` (lines 166-168): keep the items whose id differs. -/
def removeFromCart (productId : String) (prevCart : List CartItem) : List CartItem :=
  prevCart.filter (fun item => item.id ≠ productId)

/-- `updateCartQuantity` (lines 170-179): non-positive quantity filters the
item out, positive quantity maps it to the new quantity. -/
def updateCartQuantity (productId : String) (newQuantity : Int)
    (prevCart : List CartItem) : List CartItem :=
  if newQuantity ≤ 0 then
    prevCart.filter (fun item => item.id ≠ productId)
  else
    prevCart.map (fun item =>
      if item.id = productId then { item with quantity := newQuantity } else item)

/-- The `totalCents` reduce inside `getTotalCartPrice` (lines 181-185): the
cart total in minor units, before display formatting. -/
def getTotalCartPriceCents (cart : List CartItem) : Int :=
  cart.foldl (fun total item => total + item.price * item.quantity) 0

/-- One cart operation, for reasoning about arbitrary operation sequences. -/
inductive CartOp where
  | add (p : Product)
  | remove (productId : String)
  | setQuantity (productId : String) (n : Int)
  deriving Repr

/-- Apply one cart operation. -/
def applyOp (cart : List CartItem) : CartOp → List CartItem
  | CartOp.add p => addToCart p cart
  | CartOp.remove productId => removeFromCart productId cart
  | CartOp.setQuantity productId n => updateCartQuantity productId n cart

/-- Run a sequence of cart operations from the initially empty cart. -/
def runOps (ops : List CartOp) : List CartItem :=
  ops.foldl applyOp []

/-! ## Checkout redirect flow (server.js App.js part, lines 188-236) -/

/-- The two checkout-flow states: `showCheckout = false` is Browsing,
`showCheckout = true` is Reviewing. -/
inductive CheckoutState where
  | browsing
  | reviewing
  deriving Repr, DecidableEq

/-- Client UI state: the cart, the checkout flag, and the alerts shown so
far (most recent last). -/
structure UiState where
  cart : List CartItem
  checkout : CheckoutState
  alerts : List String
  deriving Repr, DecidableEq

/-- `handleProceedToCheckout` (lines 188-194): on an empty cart alert and
return early; otherwise set `showCheckout` to true. -/
def handleProceedToCheckout (s : UiState) : UiState :=
  if s.cart.length = 0 then
    { s with alerts := s.alerts ++ ["Your cart is empty! Please add some products."] }
  else
    { s with checkout := CheckoutState.reviewing }

/-- `handleBackToShopping` (lines 196-198): set `showCheckout` to false. -/
def handleBackToShopping (s : UiState) : UiState :=
  { s with checkout := CheckoutState.browsing }

/-- `handleStripeCheckoutRedirect` (lines 200-236), parameterized by the
combined outcome of the session-creation fetch and Stripe.js loading: on
success the browser redirects carrying the session id (second component);
on failure the catch block alerts with the failure reason and the state is
untouched. -/
def handleStripeCheckoutRedirect (result : Except String String) (s : UiState) :
    UiState × Option String :=
  match result with
  | Except.ok sessionId => (s, some sessionId)
  | Except.error msg =>
    ({ s with alerts :=
        s.alerts ++ ["Could not initiate checkout: " ++ msg ++ ". Please try again."] },
     none)

/-! ## Claims about the webhook handler -/

/-- C1: whenever signature verification fails (bad signature, stale
timestamp, tampered body, wrong secret all surface as a verification error),
the webhook handler responds with client-error status 400 and dispatches the
event to no handler branch. Moreover a header signed with a secret whose HMAC
disagrees with the configured one is such a verification failure. -/
theorem webhook_invalid_signature_rejected
    (hmac : String → String → String) (now tolerance : Nat)
    (parse : String → Option Event) (rawBody : String) (header : SigHeader)
    (secret : String) (msg : String)
    (h : constructEvent hmac now tolerance parse rawBody header secret =
      Except.error msg) :
    (handleWebhook (constructEvent hmac now tolerance parse rawBody header secret)).1.status = 400 ∧
    (handleWebhook (constructEvent hmac now tolerance parse rawBody header secret)).2 = [] ∧
    ∀ otherSecret,
      hmac otherSecret (toString header.timestamp ++ "." ++ rawBody) = header.v1 →
      hmac otherSecret (toString header.timestamp ++ "." ++ rawBody) ≠
        hmac secret (toString header.timestamp ++ "." ++ rawBody) →
      ∃ m, constructEvent hmac now tolerance parse rawBody header secret = Except.error m := by
  refine ⟨by rw [h]; rfl, by rw [h]; rfl, fun otherSecret hsig hne => ⟨msg, h⟩⟩

/-- Witness for C1 at a concrete input: a header signed with the wrong secret
fails verification, yielding a 400 response and an empty dispatch list. -/
theorem webhook_invalid_signature_rejected_witness :
    (handleWebhook (constructEvent (fun s p => s ++ ":" ++ p) 0 300
      (fun _ => some ⟨"checkout.session.completed", "cs_1"⟩)
      "body" ⟨0, "whsec_other:0.body"⟩ "whsec_real" )).1.status = 400 ∧
    (handleWebhook (constructEvent (fun s p => s ++ ":" ++ p) 0 300
      (fun _ => some ⟨"checkout.session.completed", "cs_1"⟩)
      "body" ⟨0, "whsec_other:0.body"⟩ "whsec_real" )).2 = [] := by
  have h := webhook_invalid_signature_rejected (fun s p => s ++ ":" ++ p) 0 300
    (fun _ => some ⟨"checkout.session.completed", "cs_1"⟩)
    "body" ⟨0, "whsec_other:0.body"⟩ "whsec_real"
    "No signatures found matching the expected signature for payload" (by rfl)
  exact ⟨h.1, h.2.1⟩

/-- C2: every successfully verified event is acknowledged with status 200 and
a received-true body and is dispatched exactly once; the recognized types
reach their own branch and every other type reaches the unhandled (no-op/log)
default branch — the dispatcher never rejects an authenticated event. -/
theorem webhook_valid_ack_and_dispatch (e : Event) :
    handleWebhook (Except.ok e) =
      (⟨200, RespBody.receivedTrue⟩, [dispatchEvent e]) ∧
    (e.type = "checkout.session.completed" →
      dispatchEvent e = Dispatch.checkoutSessionCompleted e.dataObjectId) ∧
    (e.type = "payment_intent.succeeded" →
      dispatchEvent e = Dispatch.paymentIntentSucceeded e.dataObjectId) ∧
    (e.type ≠ "checkout.session.completed" →
      e.type ≠ "payment_intent.succeeded" →
      dispatchEvent e = Dispatch.unhandled e.type) := by
  refine ⟨rfl, fun h1 => ?_, fun h2 => ?_, fun h1 h2 => ?_⟩
  · simp [dispatchEvent, h1]
  · simp [dispatchEvent, h2]
  · simp [dispatchEvent, h1, h2]

/-- Witness for C2 at concrete inputs: a recognized and an unrecognized event
type are both acknowledged with 200 and dispatched once, to the matching and
the default branch respectively. -/
theorem webhook_valid_ack_and_dispatch_witness :
    handleWebhook (Except.ok ⟨"checkout.session.completed", "cs_1"⟩) =
      (⟨200, RespBody.receivedTrue⟩,
        [Dispatch.checkoutSessionCompleted "cs_1"]) ∧
    handleWebhook (Except.ok ⟨"some.unknown.type", "x_9"⟩) =
      (⟨200, RespBody.receivedTrue⟩, [Dispatch.unhandled "some.unknown.type"]) := by
  constructor
  · have h := webhook_valid_ack_and_dispatch ⟨"checkout.session.completed", "cs_1"⟩
    rw [h.1, h.2.1 rfl]
  · have h := webhook_valid_ack_and_dispatch ⟨"some.unknown.type", "x_9"⟩
    rw [h.1, h.2.2.2 (by decide) (by decide)]

/-! ## Claims about the checkout session creator -/

/-- C3: a missing or null `items` field, or an empty `items` list, makes the
handler answer 400 with the explanatory message, and the upstream provider is
never called (the recorded outbound-call list is empty). -/
theorem createSession_invalid_request
    (stripeCreate : SessionParams → Except String String) (frontendUrl : String)
    (items : Option (List ReqItem)) (h : items = none ∨ items = some []) :
    createSession stripeCreate frontendUrl items =
      (⟨400, RespBody.jsonError "No items provided"⟩, []) := by
  rcases h with h | h <;> subst h <;> rfl

/-- Witness for C3: both a null/missing items field and an empty items list
give 400 and no upstream call, at a concrete upstream and base URL. -/
theorem createSession_invalid_request_witness :
    createSession (fun _ => Except.ok "cs_1") "http://localhost:3000" none =
      (⟨400, RespBody.jsonError "No items provided"⟩, []) ∧
    createSession (fun _ => Except.ok "cs_1") "http://localhost:3000" (some []) =
      (⟨400, RespBody.jsonError "No items provided"⟩, []) :=
  ⟨createSession_invalid_request _ _ _ (Or.inl rfl),
   createSession_invalid_request _ _ _ (Or.inr rfl)⟩

/-- C4: on a non-empty items list whose upstream call succeeds, the handler
makes exactly one upstream call whose parameters carry one line item per input
item with that item's name, price, and quantity, and answers 200 with the
upstream session id unchanged; in particular the single Premium Coffee Beans
item with price 1500 and quantity 2 yields exactly one line item with unit
amount 1500 and quantity 2. -/
theorem createSession_success
    (stripeCreate : SessionParams → Except String String) (frontendUrl : String)
    (its : List ReqItem) (sid : String) (hne : its ≠ [])
    (hok : stripeCreate (sessionParamsOf frontendUrl its) = Except.ok sid) :
    createSession stripeCreate frontendUrl (some its) =
      (⟨200, RespBody.jsonSessionId sid⟩, [sessionParamsOf frontendUrl its]) ∧
    (sessionParamsOf frontendUrl its).line_items.length = its.length ∧
    (∀ i : Nat, (sessionParamsOf frontendUrl its).line_items[i]? =
      (its[i]?).map (fun item => ⟨⟨"aud", item.name, item.price⟩, item.quantity⟩)) ∧
    (sessionParamsOf frontendUrl [⟨"product_1", "Premium Coffee Beans", 1500, 2⟩]).line_items =
      [⟨⟨"aud", "Premium Coffee Beans", 1500⟩, 2⟩] := by
  have h0 : ¬ its.length = 0 := fun h0 => hne (List.length_eq_zero.mp h0)
  refine ⟨?_, ?_, ?_, rfl⟩
  · simp [createSession, h0, hok]
  · simp [sessionParamsOf, lineItemsOf]
  · intro i
    simp [sessionParamsOf, lineItemsOf]

/-- Witness for C4 at the concrete input of the claim: one Premium Coffee
Beans item, price 1500, quantity 2, with the upstream returning a session id. -/
theorem createSession_success_witness :
    createSession (fun _ => Except.ok "cs_test_a1B2") "http://localhost:3000"
      (some [⟨"product_1", "Premium Coffee Beans", 1500, 2⟩]) =
      (⟨200, RespBody.jsonSessionId "cs_test_a1B2"⟩,
        [sessionParamsOf "http://localhost:3000"
          [⟨"product_1", "Premium Coffee Beans", 1500, 2⟩]]) ∧
    (sessionParamsOf "http://localhost:3000"
      [⟨"product_1", "Premium Coffee Beans", 1500, 2⟩]).line_items =
      [⟨⟨"aud", "Premium Coffee Beans", 1500⟩, 2⟩] := by
  have h := createSession_success (fun _ => Except.ok "cs_test_a1B2")
    "http://localhost:3000" [⟨"product_1", "Premium Coffee Beans", 1500, 2⟩]
    "cs_test_a1B2" (List.cons_ne_nil _ _) rfl
  exact ⟨h.1, h.2.2.2⟩

/-- C5: on a non-empty items list whose upstream call fails, the handler
answers 500 with the upstream error message in the body, having made exactly
the one outbound upstream call (and, the embedding being a pure function of
its inputs, no local state exists to be mutated). -/
theorem createSession_upstream_error
    (stripeCreate : SessionParams → Except String String) (frontendUrl : String)
    (its : List ReqItem) (msg : String) (hne : its ≠ [])
    (herr : stripeCreate (sessionParamsOf frontendUrl its) = Except.error msg) :
    createSession stripeCreate frontendUrl (some its) =
      (⟨500, RespBody.jsonError msg⟩, [sessionParamsOf frontendUrl its]) := by
  have h0 : ¬ its.length = 0 := fun h0 => hne (List.length_eq_zero.mp h0)
  simp [createSession, h0, herr]

/-- Witness for C5 at a concrete input: an upstream failure with an invalid
API key message surfaces as 500 carrying that message, with one upstream call. -/
theorem createSession_upstream_error_witness :
    createSession (fun _ => Except.error "Invalid API Key provided")
      "http://localhost:3000" (some [⟨"product_1", "Premium Coffee Beans", 1500, 2⟩]) =
      (⟨500, RespBody.jsonError "Invalid API Key provided"⟩,
        [sessionParamsOf "http://localhost:3000"
          [⟨"product_1", "Premium Coffee Beans", 1500, 2⟩]]) :=
  createSession_upstream_error _ _ _ _ (List.cons_ne_nil _ _) rfl

/-! ## Cart lemmas -/

/-- Mapping a function that preserves item ids leaves the id list unchanged. -/
lemma map_ids_of_preserve (f : CartItem → CartItem)
    (hf : ∀ it, (f it).id = it.id) (c : List CartItem) :
    (c.map f).map CartItem.id = c.map CartItem.id := by
  induction c with
  | nil => rfl
  | cons a t ih => simp [hf, ih]

/-- Mapping a function that fixes every element of the list is the identity. -/
lemma map_eq_self_of_fix (f : CartItem → CartItem) (c : List CartItem)
    (h : ∀ it ∈ c, f it = it) : c.map f = c := by
  induction c with
  | nil => rfl
  | cons a t ih =>
    simp only [List.map_cons, h a (List.mem_cons_self a t)]
    rw [ih (fun it hit => h it (List.mem_cons_of_mem a hit))]

/-- The quantity bump in `addToCart` preserves every item's id. -/
lemma bump_preserves_id (pid : String) (it : CartItem) :
    ((if it.id = pid then { it with quantity := it.quantity + 1 } else it) : CartItem).id
      = it.id := by
  split <;> rfl

/-- The quantity replacement in `updateCartQuantity` preserves every item's id. -/
lemma setq_preserves_id (pid : String) (n : Int) (it : CartItem) :
    ((if it.id = pid then { it with quantity := n } else it) : CartItem).id = it.id := by
  split <;> rfl

/-- Filtering preserves distinctness of the id list. -/
lemma nodup_ids_filter (q : CartItem → Bool) (c : List CartItem)
    (h : (c.map CartItem.id).Nodup) : ((c.filter q).map CartItem.id).Nodup :=
  h.sublist (List.Sublist.map _ (List.filter_sublist c))

/-- A cart whose id is absent has no item with that id. -/
lemma ne_of_not_mem_ids (pid : String) (c : List CartItem)
    (h : pid ∉ c.map CartItem.id) : ∀ it ∈ c, it.id ≠ pid := by
  intro it hit heq
  exact h (List.mem_map.mpr ⟨it, hit, heq⟩)

/-- When `find?` misses the first list, it searches the second. -/
lemma find?_append_of_none (pr : CartItem → Bool) (l₁ l₂ : List CartItem)
    (h : l₁.find? pr = none) : (l₁ ++ l₂).find? pr = l₂.find? pr := by
  induction l₁ with
  | nil => rfl
  | cons a t ih =>
    cases hpa : pr a with
    | true =>
      exfalso
      rw [List.find?_cons_of_pos _ hpa] at h
      exact Option.noConfusion h
    | false =>
      rw [List.find?_cons_of_neg _ (by simp [hpa])] at h
      rw [List.cons_append, List.find?_cons_of_neg _ (by simp [hpa])]
      exact ih h

/-- `addToCart` preserves distinctness of the id list. -/
lemma nodup_ids_addToCart (p : Product) (c : List CartItem)
    (h : (c.map CartItem.id).Nodup) : ((addToCart p c).map CartItem.id).Nodup := by
  unfold addToCart
  cases hf : c.find? (fun item => item.id == p.id) with
  | some it =>
    rw [map_ids_of_preserve _ (bump_preserves_id p.id) c]
    exact h
  | none =>
    have habs : p.id ∉ c.map CartItem.id := by
      intro hmem
      rw [List.find?_eq_none] at hf
      obtain ⟨it, hit, hid⟩ := List.mem_map.mp hmem
      exact hf it hit (by simp [hid])
    simp [toCartItem, List.nodup_append, h, habs]

/-- Every single cart operation preserves distinctness of the id list. -/
lemma nodup_ids_applyOp (c : List CartItem) (op : CartOp)
    (h : (c.map CartItem.id).Nodup) : ((applyOp c op).map CartItem.id).Nodup := by
  cases op with
  | add p => exact nodup_ids_addToCart p c h
  | remove pid => exact nodup_ids_filter _ c h
  | setQuantity pid n =>
    show ((updateCartQuantity pid n c).map CartItem.id).Nodup
    unfold updateCartQuantity
    split
    · exact nodup_ids_filter _ c h
    · rw [map_ids_of_preserve _ (setq_preserves_id pid n) c]
      exact h

/-! ## Claims about the cart state manager -/

/-- C6: after any sequence of add/remove/setQuantity operations from the
empty cart, no two cart items share a product id, and the total-in-minor-units
computation equals the sum of price times quantity over the current items. -/
theorem cart_invariants (ops : List CartOp) :
    (((runOps ops).map CartItem.id).Nodup) ∧
    getTotalCartPriceCents (runOps ops) =
      ((runOps ops).map (fun it => it.price * it.quantity)).sum := by
  constructor
  · have key : ∀ (l : List CartOp) (c : List CartItem),
        ((c.map CartItem.id).Nodup) → ((l.foldl applyOp c).map CartItem.id).Nodup := by
      intro l
      induction l with
      | nil => exact fun c h => h
      | cons op t ih => exact fun c h => ih _ (nodup_ids_applyOp c op h)
    exact key ops [] (by simp)
  · have key : ∀ (c : List CartItem) (a : Int),
        c.foldl (fun t it => t + it.price * it.quantity) a =
          a + (c.map (fun it => it.price * it.quantity)).sum := by
      intro c
      induction c with
      | nil => intro a; simp
      | cons it t ih =>
        intro a
        simp only [List.foldl_cons, List.map_cons, List.sum_cons, ih]
        ring
    simpa [getTotalCartPriceCents] using key (runOps ops) 0

/-- C7: adding a product whose id is absent appends a new item with quantity
1 at the end (preserving first-insertion order); adding it twice yields the
single item with quantity 2, not two items; and adding a product whose id is
present maps the cart, incrementing the matching item's quantity by 1 while
leaving every other item unchanged. -/
theorem addToCart_spec (p : Product) (c : List CartItem)
    (h : p.id ∉ c.map CartItem.id) :
    addToCart p c = c ++ [toCartItem p 1] ∧
    addToCart p (addToCart p c) = c ++ [toCartItem p 2] ∧
    (∀ c' : List CartItem, p.id ∈ c'.map CartItem.id →
      addToCart p c' = c'.map (fun it =>
        if it.id = p.id then { it with quantity := it.quantity + 1 } else it)) := by
  have hne := ne_of_not_mem_ids p.id c h
  have hnone : c.find? (fun item => item.id == p.id) = none := by
    rw [List.find?_eq_none]
    intro it hit
    simp [hne it hit]
  have h1 : addToCart p c = c ++ [toCartItem p 1] := by
    unfold addToCart
    rw [hnone]
  refine ⟨h1, ?_, ?_⟩
  · rw [h1]
    unfold addToCart
    rw [find?_append_of_none _ _ _ hnone,
      List.find?_cons_of_pos _ (by simp [toCartItem]),
      List.map_append,
      map_eq_self_of_fix _ c (fun it hit => if_neg (hne it hit))]
    simp [toCartItem]
  · intro c' hmem
    unfold addToCart
    cases hf : c'.find? (fun item => item.id == p.id) with
    | some it => rfl
    | none =>
      exfalso
      rw [List.find?_eq_none] at hf
      obtain ⟨it, hit, hid⟩ := List.mem_map.mp hmem
      exact hf it hit (by simp [hid])

/-- Witness for C7 at a concrete product and the empty cart: one add appends
the item with quantity 1, a second add leaves one item with quantity 2. -/
theorem addToCart_spec_witness :
    addToCart ⟨"product_1", "Premium Coffee Beans", 1500, "/images/coffee.jpg"⟩ [] =
      [⟨"product_1", "Premium Coffee Beans", 1500, "/images/coffee.jpg", 1⟩] ∧
    addToCart ⟨"product_1", "Premium Coffee Beans", 1500, "/images/coffee.jpg"⟩
      (addToCart ⟨"product_1", "Premium Coffee Beans", 1500, "/images/coffee.jpg"⟩ []) =
      [⟨"product_1", "Premium Coffee Beans", 1500, "/images/coffee.jpg", 2⟩] := by
  have h := addToCart_spec ⟨"product_1", "Premium Coffee Beans", 1500, "/images/coffee.jpg"⟩
    [] (by simp)
  exact ⟨h.1, h.2.1⟩

/-- C8: setting a non-positive quantity is the same cart transformation as
removing the product (so quantity 0 and quantity -1 both remove the item),
and setting a positive quantity replaces the matching item's quantity with
the new value, leaving every other item unchanged. -/
theorem updateCartQuantity_spec (productId : String) (n : Int) (c : List CartItem) :
    (n ≤ 0 → updateCartQuantity productId n c = removeFromCart productId c) ∧
    (0 < n → updateCartQuantity productId n c =
      c.map (fun it => if it.id = productId then { it with quantity := n } else it)) := by
  constructor
  · intro h
    simp [updateCartQuantity, removeFromCart, h]
  · intro h
    simp [updateCartQuantity, not_le.mpr h]

/-- Witness for C8 at a concrete one-item cart: quantity 0 and quantity -1
both coincide with removal; quantity 5 replaces the stored quantity. -/
theorem updateCartQuantity_spec_witness :
    updateCartQuantity "product_1" 0
        [⟨"product_1", "Premium Coffee Beans", 1500, "/images/coffee.jpg", 2⟩] =
      removeFromCart "product_1"
        [⟨"product_1", "Premium Coffee Beans", 1500, "/images/coffee.jpg", 2⟩] ∧
    updateCartQuantity "product_1" (-1)
        [⟨"product_1", "Premium Coffee Beans", 1500, "/images/coffee.jpg", 2⟩] =
      removeFromCart "product_1"
        [⟨"product_1", "Premium Coffee Beans", 1500, "/images/coffee.jpg", 2⟩] ∧
    updateCartQuantity "product_1" 5
        [⟨"product_1", "Premium Coffee Beans", 1500, "/images/coffee.jpg", 2⟩] =
      [⟨"product_1", "Premium Coffee Beans", 1500, "/images/coffee.jpg", 5⟩] := by
  refine ⟨(updateCartQuantity_spec _ _ _).1 (by norm_num),
    (updateCartQuantity_spec _ _ _).1 (by norm_num), ?_⟩
  rw [(updateCartQuantity_spec "product_1" 5
    [⟨"product_1", "Premium Coffee Beans", 1500, "/images/coffee.jpg", 2⟩]).2 (by norm_num)]
  rfl

/-- C10: setting a positive quantity for a product id that is not in the cart
leaves the cart unchanged: no item is created and none is modified. -/
theorem updateCartQuantity_absent (productId : String) (n : Int) (c : List CartItem)
    (hn : 0 < n) (habs : productId ∉ c.map CartItem.id) :
    updateCartQuantity productId n c = c := by
  have hne := ne_of_not_mem_ids productId c habs
  unfold updateCartQuantity
  rw [if_neg (not_le.mpr hn)]
  exact map_eq_self_of_fix _ c (fun it hit => if_neg (hne it hit))

/-- Witness for C10 at a concrete cart: setting quantity 3 for an id that is
not present returns the cart untouched. -/
theorem updateCartQuantity_absent_witness :
    updateCartQuantity "product_2" 3
        [⟨"product_1", "Premium Coffee Beans", 1500, "/images/coffee.jpg", 2⟩] =
      [⟨"product_1", "Premium Coffee Beans", 1500, "/images/coffee.jpg", 2⟩] :=
  updateCartQuantity_absent "product_2" 3
    [⟨"product_1", "Premium Coffee Beans", 1500, "/images/coffee.jpg", 2⟩]
    (by norm_num) (by simp)

/-! ## Claims about the checkout redirect flow -/

/-- C9: proceeding to checkout from an empty cart only appends the warning
alert and leaves the state (in particular Browsing) unchanged; from a
non-empty cart it moves to Reviewing; going back to shopping yields Browsing
unconditionally; and a failed pay leaves the checkout state untouched (so a
Reviewing state remains Reviewing) while alerting with the failure reason. -/
theorem checkout_flow_spec (s : UiState) (msg : String) :
    (s.cart.length = 0 → handleProceedToCheckout s =
      { s with alerts := s.alerts ++ ["Your cart is empty! Please add some products."] }) ∧
    (s.cart.length = 0 → (handleProceedToCheckout s).checkout = s.checkout) ∧
    (s.cart.length ≠ 0 →
      handleProceedToCheckout s = { s with checkout := CheckoutState.reviewing }) ∧
    (handleBackToShopping s).checkout = CheckoutState.browsing ∧
    (handleStripeCheckoutRedirect (Except.error msg) s).1.checkout = s.checkout ∧
    (s.checkout = CheckoutState.reviewing →
      (handleStripeCheckoutRedirect (Except.error msg) s).1.checkout =
        CheckoutState.reviewing) ∧
    (handleStripeCheckoutRedirect (Except.error msg) s).2 = none ∧
    (handleStripeCheckoutRedirect (Except.error msg) s).1.alerts =
      s.alerts ++ ["Could not initiate checkout: " ++ msg ++ ". Please try again."] := by
  refine ⟨fun h => ?_, fun h => ?_, fun h => ?_, rfl, rfl, fun h => ?_, rfl, rfl⟩
  · simp [handleProceedToCheckout, h]
  · simp [handleProceedToCheckout, h]
  · simp [handleProceedToCheckout, h]
  · rw [show (handleStripeCheckoutRedirect (Except.error msg) s).1.checkout
        = s.checkout from rfl, h]

/-- Witness for C9 at concrete states: an empty-cart proceed warns and stays
Browsing; a non-empty proceed reaches Reviewing; back-to-shopping reaches
Browsing; a failed pay from Reviewing stays Reviewing. -/
theorem checkout_flow_spec_witness :
    handleProceedToCheckout ⟨[], CheckoutState.browsing, []⟩ =
      ⟨[], CheckoutState.browsing, ["Your cart is empty! Please add some products."]⟩ ∧
    (handleProceedToCheckout
      ⟨[⟨"product_1", "Premium Coffee Beans", 1500, "/images/coffee.jpg", 1⟩],
        CheckoutState.browsing, []⟩).checkout = CheckoutState.reviewing ∧
    (handleBackToShopping
      ⟨[], CheckoutState.reviewing, []⟩).checkout = CheckoutState.browsing ∧
    (handleStripeCheckoutRedirect (Except.error "Network error")
      ⟨[⟨"product_1", "Premium Coffee Beans", 1500, "/images/coffee.jpg", 1⟩],
        CheckoutState.reviewing, []⟩).1.checkout = CheckoutState.reviewing := by
  refine ⟨?_, ?_, ?_, ?_⟩
  · rw [(checkout_flow_spec ⟨[], CheckoutState.browsing, []⟩ "m").1 rfl]
    rfl
  · rw [(checkout_flow_spec
      ⟨[⟨"product_1", "Premium Coffee Beans", 1500, "/images/coffee.jpg", 1⟩],
        CheckoutState.browsing, []⟩ "m").2.2.1 (by simp)]
  · exact (checkout_flow_spec ⟨[], CheckoutState.reviewing, []⟩ "m").2.2.2.1
  · exact (checkout_flow_spec
      ⟨[⟨"product_1", "Premium Coffee Beans", 1500, "/images/coffee.jpg", 1⟩],
        CheckoutState.reviewing, []⟩ "Network error").2.2.2.2.2.1 rfl
